import Mathlib

/-!
Verification development for two command-line utility scripts:

* `scripts/convert_svg_to_png.py` — an SVG-to-PNG converter that probes a
  fixed priority list of conversion backends, invokes the first one found,
  and on verified success optionally rewrites a `package.json` icon
  reference.
* `.github/skills/impl/scripts/archive-task-file.py` — a task-file archiver
  that moves a file into `.vscode/tasks/archive/` when (and only when) it
  lies strictly inside the workspace's `.vscode/` directory, choosing a
  collision-free destination name.

The scripts are embedded shallowly.  External effects (library imports,
subprocess results, the filesystem) are abstracted into environment records
(`ConvEnv`, `FS`); each embedded `main` returns a process outcome together
with the ordered trace of filesystem mutations it performs and the messages
it prints.
-/

/-- Process outcome: a normal exit with a code, or termination by an
uncaught exception (Python traceback). -/
inductive Outcome where
  | exit (code : Nat)
  | exc (msg : String)
deriving DecidableEq, Repr

/-! ## Converter: `scripts/convert_svg_to_png.py` -/

/-- The four conversion backends probed by `check_dependencies`, in
source order. -/
inductive Backend where
  | cairosvg
  | wand
  | rsvg
  | magick
deriving DecidableEq, Repr

/-- Abstraction of the external world seen by one converter run: which
imports succeed, what the probed and invoked external tools return, what
the filesystem reports, and the manifest (`package.json`) content if that
file exists. -/
structure ConvEnv where
  /-- `import cairosvg` succeeds. -/
  hasCairosvg : Bool
  /-- `from PIL import Image`, `import io` and `from wand.image import Image` all succeed. -/
  hasWand : Bool
  /-- running `rsvg-convert --version` does not raise `FileNotFoundError`. -/
  rsvgFound : Bool
  /-- `rsvg-convert --version` exits with return code 0. -/
  rsvgExitZero : Bool
  /-- running `convert -version` does not raise `FileNotFoundError`. -/
  magickFound : Bool
  /-- `convert -version` exits with return code 0. -/
  magickExitZero : Bool
  /-- `svg_path.exists()`. -/
  inputExists : Bool
  /-- invoking the selected backend raises an exception. -/
  backendRaises : Bool
  /-- for the external command-line backends: the conversion subprocess exits 0. -/
  toolExitZero : Bool
  /-- diagnostic text of the backend failure (exception text or stderr). -/
  errText : String
  /-- `png_path.exists()` after the backend ran. -/
  outputExistsAfter : Bool
  /-- `png_path.stat().st_size` after success. -/
  outputFileSize : Nat
  /-- content of `package.json` when that file exists. -/
  manifest : Option String

/-- Whether one given backend's probe would report it available
(`check_dependencies`, lines 11-48: an import backend is available when its
imports succeed; an external tool is available when it is found and its
version query returns 0). -/
def available (env : ConvEnv) : Backend → Bool
  | .cairosvg => env.hasCairosvg
  | .wand => env.hasWand
  | .rsvg => env.rsvgFound && env.rsvgExitZero
  | .magick => env.magickFound && env.magickExitZero

/-- Position of a backend in the fixed probe order of `check_dependencies`. -/
def priority : Backend → Nat
  | .cairosvg => 0
  | .wand => 1
  | .rsvg => 2
  | .magick => 3

/-- Embedding of `check_dependencies`: probe the four backends in source
order; each failed probe falls through to the next; return the first
available backend, or nothing. -/
def check_dependencies (env : ConvEnv) : Option Backend :=
  if env.hasCairosvg then some .cairosvg
  else if env.hasWand then some .wand
  else if env.rsvgFound && env.rsvgExitZero then some .rsvg
  else if env.magickFound && env.magickExitZero then some .magick
  else none

/-- Whether the invoked backend reports success: the library backends
(`convert_with_cairosvg`, `convert_with_wand`) return `True` unless they
raise; the subprocess backends (`convert_with_rsvg`,
`convert_with_imagemagick`) additionally return `False` when the tool exits
non-zero. -/
def backendSuccess (env : ConvEnv) : Backend → Bool
  | .cairosvg => !env.backendRaises
  | .wand => !env.backendRaises
  | .rsvg => !env.backendRaises && env.toolExitZero
  | .magick => !env.backendRaises && env.toolExitZero

/-- Name of a backend as used in the `method` variable of `main`. -/
def backendName : Backend → String
  | .cairosvg => "cairosvg"
  | .wand => "wand"
  | .rsvg => "rsvg-convert"
  | .magick => "imagemagick"

/-- Header printed by each `convert_with_*` function. -/
def backendUiName : Backend → String
  | .cairosvg => "cairosvg"
  | .wand => "Wand/ImageMagick"
  | .rsvg => "rsvg-convert"
  | .magick => "ImageMagick"

/-- The install-hint dictionary of `install_suggestion`. -/
def suggestionFor : String → String
  | "cairosvg" => "pip install cairosvg"
  | "wand" => "pip install Wand (requires ImageMagick to be installed)"
  | "rsvg-convert" => "brew install librsvg (macOS) or apt-get install librsvg2-bin (Ubuntu)"
  | "imagemagick" => "brew install imagemagick (macOS) or apt-get install imagemagick (Ubuntu)"
  | m => m

/-- Line printed by `install_suggestion` for one method. -/
def install_suggestion (method : String) : String :=
  "\nTo use this method, install: " ++ suggestionFor method

/-- Insert a comma every three characters of a reversed digit list
(helper for Python's thousands-separator number format). -/
def commaRev : List Char → List Char
  | a :: b :: c :: d :: rest => a :: b :: c :: ',' :: commaRev (d :: rest)
  | l => l

/-- Python format `f"{n:,}"` for a natural number: decimal digits grouped
in threes by commas. -/
def commaSep (n : Nat) : String :=
  String.mk ((commaRev (toString n).toList.reverse).reverse)

/-- Split a character list at every occurrence of a separator. -/
def splitOnChar (sep : Char) : List Char → List (List Char)
  | [] => [[]]
  | c :: rest =>
    if c = sep then [] :: splitOnChar sep rest
    else
      match splitOnChar sep rest with
      | [] => [[c]]
      | h :: t => (c :: h) :: t

/-- Python `pathlib.Path(p).parent` rendered as a string (components
normalised the way `pathlib` normalises: empty and `.` parts dropped). -/
def parentDir (p : String) : String :=
  let l := p.toList
  let isAbs : Bool := match l with | '/' :: _ => true | _ => false
  let comps := (splitOnChar '/' l).filter (fun c => (c != []) && (c != ['.']))
  let par := comps.dropLast
  if par.isEmpty then (if isAbs then "/" else ".")
  else (if isAbs then "/" else "") ++ String.intercalate "/" (par.map String.mk)

/-- Scan of a character list for an occurrence of a pattern. -/
def containsSub (pat : List Char) : List Char → Bool
  | [] => pat.isEmpty
  | c :: rest => pat.isPrefixOf (c :: rest) || containsSub pat rest

/-- Python's substring operator `pat in s` for strings. -/
def strIn (pat s : String) : Bool := containsSub pat.toList s.toList

/-- Replacement engine: substitute each non-overlapping occurrence of a
nonempty pattern, scanning left to right; `fuel` bounds the scan by the
subject length. -/
def replaceFuel (pat new : List Char) : Nat → List Char → List Char
  | 0, s => s
  | _ + 1, [] => []
  | fuel + 1, c :: rest =>
    if pat.isPrefixOf (c :: rest) then
      new ++ replaceFuel pat new fuel (rest.drop (pat.length - 1))
    else c :: replaceFuel pat new fuel rest

/-- Python `s.replace(pat, new)` as the converter uses it (its pattern, a
fixed literal, is nonempty; for an empty pattern the subject is kept). -/
def pyReplace (s pat new : String) : String :=
  if pat.toList.isEmpty then s
  else String.mk (replaceFuel pat.toList new.toList s.toList.length s.toList)

/-- The exact literal searched for in `package.json` (line 192 of the
converter). -/
def iconOld : String := "\"icon\": \"resources/icons/shortcuts.svg\""

/-- The exact literal written in its place (line 195 of the converter). -/
def iconNew : String := "\"icon\": \"resources/icons/shortcuts.png\""

/-- Filesystem mutation performed by the converter, in program order. -/
inductive ConvEvent where
  | mkdirParent (dir : String)
  | invoke (b : Backend)
  | rewriteManifest (newContent : String)
deriving DecidableEq, Repr

/-- Result of one converter run: outcome, ordered mutation trace, printed
messages. -/
structure ConvOut where
  outcome : Outcome
  events : List ConvEvent
  msgs : List String
deriving DecidableEq, Repr

/-- Recognise the backend-invocation events in a trace. -/
def isInvoke : ConvEvent → Bool
  | .invoke _ => true
  | _ => false

/-- Recognise the manifest-rewrite events in a trace. -/
def isRewrite : ConvEvent → Bool
  | .rewriteManifest _ => true
  | _ => false

/-- Messages printed by the selected backend invocation and by `main`'s
exception handler around it. -/
def backendMsgs (env : ConvEnv) (b : Backend) (svg png : String) (size : Int) : List String :=
  let hd := "Converting using " ++ backendUiName b ++ ": " ++ svg ++ " -> " ++ png ++
    " (" ++ toString size ++ "x" ++ toString size ++ ")"
  if env.backendRaises then [hd, "Error during conversion: " ++ env.errText]
  else match b with
  | .cairosvg => [hd]
  | .wand => [hd]
  | .rsvg => if env.toolExitZero then [hd] else [hd, "Error: " ++ env.errText]
  | .magick => if env.toolExitZero then [hd] else [hd, "Error: " ++ env.errText]

/-- Confirmation summary printed on verified success (lines 183-187):
output path, file size in bytes (comma-grouped), pixel dimensions. -/
def summaryMsgs (png : String) (fileSize : Nat) (size : Int) : List String :=
  ["\n✅ Conversion successful!",
   "   Output: " ++ png,
   "   Size: " ++ commaSep fileSize ++ " bytes",
   "   Dimensions: " ++ toString size ++ "x" ++ toString size ++ "px"]

/-- Embedding of the converter's `main` after argument parsing: the input
existence check, output-directory creation, backend discovery, the single
backend invocation, success verification, and the conditional manifest
rewrite. -/
def convRun (env : ConvEnv) (argv0 svg png : String) (size : Int) : ConvOut :=
  if env.inputExists = false then
    { outcome := .exit 1, events := [],
      msgs := ["Error: SVG file not found: " ++ svg,
               "Usage: " ++ argv0 ++ " [svg_input] [png_output] [size]",
               "Example: " ++ argv0 ++ " icon.svg icon.png 128"] }
  else
    let ev0 : List ConvEvent := [.mkdirParent (parentDir png)]
    let hdr : List String :=
      ["Converting SVG to PNG:", "  Input: " ++ svg, "  Output: " ++ png,
       "  Size: " ++ toString size ++ "x" ++ toString size ++ "px", ""]
    match check_dependencies env with
    | none =>
      { outcome := .exit 1, events := ev0,
        msgs := hdr ++
          ["No suitable conversion tools found!",
           "\nYou can install one of these options:",
           install_suggestion "cairosvg", install_suggestion "wand",
           install_suggestion "rsvg-convert", install_suggestion "imagemagick"] }
    | some b =>
      let bm := backendMsgs env b svg png size
      if backendSuccess env b && env.outputExistsAfter then
        let sm := summaryMsgs png env.outputFileSize size
        match env.manifest with
        | some content =>
          if strIn iconOld content then
            { outcome := .exit 0,
              events := ev0 ++ [.invoke b, .rewriteManifest (pyReplace content iconOld iconNew)],
              msgs := hdr ++ bm ++ sm ++ ["   Updated package.json to reference PNG icon"] }
          else
            { outcome := .exit 0, events := ev0 ++ [.invoke b], msgs := hdr ++ bm ++ sm }
        | none =>
          { outcome := .exit 0, events := ev0 ++ [.invoke b], msgs := hdr ++ bm ++ sm }
      else
        { outcome := .exit 1, events := ev0 ++ [.invoke b],
          msgs := hdr ++ bm ++ ["\n❌ Conversion failed using " ++ backendName b] }

/-- Decimal digit run with single underscores allowed between digits,
continuing an already-started number (Python `int` literal tail). -/
def digitsCore (acc : Nat) : List Char → Option Nat
  | [] => some acc
  | '_' :: c :: rest =>
      if c.isDigit then digitsCore (acc * 10 + (c.toNat - 48)) rest else none
  | c :: rest =>
      if c.isDigit then digitsCore (acc * 10 + (c.toNat - 48)) rest else none

/-- Nonempty decimal digit run with single underscores between digits. -/
def digitsUnd : List Char → Option Nat
  | [] => none
  | c :: rest => if c.isDigit then digitsCore (c.toNat - 48) rest else none

/-- Embedding of Python `int(s)` on a decimal string: optional surrounding
whitespace, optional sign, digits with underscore separators; anything else
raises `ValueError` (modelled as `none`). -/
def pyIntParse (s : String) : Option Int :=
  let l := s.toList.dropWhile (·.isWhitespace)
  let l := (l.reverse.dropWhile (·.isWhitespace)).reverse
  match l with
  | '+' :: rest => (digitsUnd rest).map Int.ofNat
  | '-' :: rest => (digitsUnd rest).map (fun n => -(n : Int))
  | rest => (digitsUnd rest).map Int.ofNat

/-- Parsed positional arguments of the converter. -/
structure ConvArgs where
  svg : String
  png : String
  size : Int
deriving DecidableEq, Repr

/-- Embedding of the converter's argument handling (lines 129-135):
positional defaults, and `int(sys.argv[3])` which raises `ValueError` on a
non-integer third argument. -/
def parseArgs (argv : List String) : Except String ConvArgs :=
  let svg := argv.getD 1 "resources/icons/shortcuts.svg"
  let png := argv.getD 2 "resources/icons/shortcuts.png"
  match argv.get? 3 with
  | none => .ok ⟨svg, png, 128⟩
  | some s =>
    match pyIntParse s with
    | some n => .ok ⟨svg, png, n⟩
    | none => .error ("ValueError: invalid literal for int() with base 10: " ++ s)

/-- Embedding of the converter's `main`: parse arguments (an unparsable
size terminates the process with a traceback before anything else), then
run the conversion. -/
def convMain (env : ConvEnv) (argv : List String) : ConvOut :=
  match parseArgs argv with
  | .error e => { outcome := .exc e, events := [], msgs := [] }
  | .ok a => convRun env (argv.getD 0 "") a.svg a.png a.size

/-! ## Archiver: `.github/skills/impl/scripts/archive-task-file.py` -/

/-- A `pathlib` path after normalisation: an absolute flag and the list of
name components. -/
structure PyPath where
  isAbs : Bool
  comps : List String
deriving DecidableEq, Repr

/-- Python `Path` division `l / r` for a relative right operand. -/
def pyJoin (l r : PyPath) : PyPath := ⟨l.isAbs, l.comps ++ r.comps⟩

/-- Append one name component to a path (`p / "name"`). -/
def pathChild (p : PyPath) (name : String) : PyPath := ⟨p.isAbs, p.comps ++ [name]⟩

/-- Python `str(Path)`. -/
def pathStr (p : PyPath) : String :=
  match p.comps with
  | [] => if p.isAbs then "/" else "."
  | _ => (if p.isAbs then "/" else "") ++ String.intercalate "/" p.comps

/-- Python `Path.name`: the final component (empty for a bare root). -/
def baseName (p : PyPath) : String := p.comps.getLastD ""

/-- Abstraction of the filesystem and process state seen by one archiver
run: the current working directory, `expanduser` and symlink-resolving
`resolve` as oracle functions, and file/directory existence. -/
structure FS where
  cwd : PyPath
  expanduser : PyPath → PyPath
  resolve : PyPath → PyPath
  pathExists : PyPath → Bool

/-- Embedding of `is_subpath` (lines 20-26): resolve both paths; `child`
is inside `parent` when `child.relative_to(parent)` succeeds (same anchor,
parent components a prefix of the child's) and the remainder is not `.`
(strictness). A failing `relative_to` is caught and yields `False`. -/
def is_subpath (fs : FS) (child parent : PyPath) : Bool :=
  let c := fs.resolve child
  let p := fs.resolve parent
  (c.isAbs == p.isAbs) && p.comps.isPrefixOf c.comps && (c.comps != p.comps)

/-- Python `Path.stem` and `Path.suffix` of a file name: the suffix starts
at the last dot when that dot is neither the first nor the last character;
otherwise the suffix is empty and the stem is the whole name. -/
def lastIdxOf (c : Char) : List Char → Option Nat
  | [] => none
  | a :: rest =>
    match lastIdxOf c rest with
    | some i => some (i + 1)
    | none => if a = c then some 0 else none

/-- Split a file name into Python's `(stem, suffix)`. -/
def pyStemSuffix (name : String) : String × String :=
  let l := name.toList
  match lastIdxOf '.' l with
  | some i =>
    if 0 < i && i + 1 < l.length then (String.mk (l.take i), String.mk (l.drop i))
    else (name, "")
  | none => (name, "")

/-- Candidate archive file name `f"{stem} ({n}){suffix}"` tried by
`unique_dest`. -/
def candName (stem sfx : String) (n : Nat) : String :=
  stem ++ " (" ++ toString n ++ ")" ++ sfx

/-- Search loop of `unique_dest`: try `candName` at successive integers
while fuel lasts, returning the first name the filesystem does not already
hold. The source iterates `range(1, 1000)`, i.e. fuel 999 from 1. -/
def findFree (taken : String → Bool) (stem sfx : String) : Nat → Nat → Option String
  | _, 0 => none
  | n, fuel + 1 =>
    let c := candName stem sfx n
    if taken c then findFree taken stem sfx (n + 1) fuel else some c

/-- Embedding of `unique_dest` (lines 29-40) over the predicate `taken`
(existence of a name inside the archive directory): keep the plain name
when free, else the first free `" (n)"` variant for `n` in `1..999`;
`none` models the `RuntimeError` raised when all candidates exist. -/
def unique_dest (taken : String → Bool) (name : String) : Option String :=
  if taken name = false then some name
  else findFree taken (pyStemSuffix name).1 (pyStemSuffix name).2 1 999

/-- Filesystem mutation performed by the archiver, in program order. -/
inductive FsAct where
  | mkdirp (p : PyPath)
  | move (src dest : PyPath)
deriving DecidableEq, Repr

/-- Result of one archiver run: outcome, ordered mutation trace, printed
messages. -/
structure ArchOut where
  outcome : Outcome
  acts : List FsAct
  msgs : List String
deriving DecidableEq, Repr

/-- The workspace root as `main` computes it:
`Path(args.workspace).expanduser().resolve()`, the `--workspace` argument
defaulting to `os.getcwd()`. -/
def wsRoot (fs : FS) (wsArg : Option PyPath) : PyPath :=
  fs.resolve (fs.expanduser (wsArg.getD fs.cwd))

/-- The resolved task path as `main` computes it: `expanduser`, then
resolve the path itself when absolute, else resolve it joined under the
workspace root. -/
def resolvedTask (fs : FS) (taskArg : PyPath) (wsArg : Option PyPath) : PyPath :=
  let tp := fs.expanduser taskArg
  if tp.isAbs then fs.resolve tp else fs.resolve (pyJoin (wsRoot fs wsArg) tp)

/-- The contained branch of the archiver's `main` (lines 67-74): create
the archive directory, choose a unique destination name for the task
file's base name, and move the file there; exhaustion of the name search
raises `RuntimeError` after the directory creation already happened. -/
def archiveContained (fs : FS) (vscode_root task_abs : PyPath) : ArchOut :=
  let archive_dir := pathChild (pathChild vscode_root "tasks") "archive"
  match unique_dest (fun nm => fs.pathExists (pathChild archive_dir nm)) (baseName task_abs) with
  | none =>
    { outcome := .exc ("RuntimeError: Could not find unique archive filename for: " ++
        pathStr (pathChild archive_dir (baseName task_abs))),
      acts := [.mkdirp archive_dir], msgs := [] }
  | some nm =>
    let dest := pathChild archive_dir nm
    { outcome := .exit 0,
      acts := [.mkdirp archive_dir, .move task_abs dest],
      msgs := ["Archived: " ++ pathStr task_abs ++ " -> " ++ pathStr dest] }

/-- Embedding of the archiver's `main` (lines 43-74): missing task file
exits 2 with no mutation; a task outside `.vscode/` is an intentional
no-op skip exiting 0; otherwise the file is archived via
`archiveContained`. -/
def archiveMain (fs : FS) (taskArg : PyPath) (wsArg : Option PyPath) : ArchOut :=
  let workspace_root := wsRoot fs wsArg
  let task_abs := resolvedTask fs taskArg wsArg
  if fs.pathExists task_abs = false then
    { outcome := .exit 2, acts := [], msgs := ["Task file not found: " ++ pathStr task_abs] }
  else
    let vscode_root := pathChild workspace_root ".vscode"
    if is_subpath fs task_abs vscode_root = false then
      { outcome := .exit 0, acts := [],
        msgs := ["Skip: task is not under .vscode/: " ++ pathStr task_abs] }
    else
      archiveContained fs vscode_root task_abs

/-! ## Helper lemmas -/

/-- When `findFree` returns a name, it is the first free candidate: every
earlier candidate in the scanned window was taken. -/
theorem findFree_some_spec (taken : String → Bool) (stem sfx : String) :
    ∀ fuel n c, findFree taken stem sfx n fuel = some c →
      ∃ k, k < fuel ∧ c = candName stem sfx (n + k) ∧ taken c = false ∧
        ∀ j, j < k → taken (candName stem sfx (n + j)) = true := by
  intro fuel
  induction fuel with
  | zero => intro n c h; simp [findFree] at h
  | succ fuel ih =>
    intro n c h
    simp only [findFree] at h
    split at h
    case isTrue ht =>
      obtain ⟨k, hk, hc, hf, hall⟩ := ih (n + 1) c h
      refine ⟨k + 1, by omega, ?_, hf, ?_⟩
      · rw [hc]; congr 1; omega
      · intro j hj
        match j with
        | 0 => simpa using ht
        | j + 1 =>
          have := hall j (by omega)
          rw [show n + (j + 1) = n + 1 + j by omega]
          exact this
    case isFalse ht =>
      injection h with h
      subst h
      exact ⟨0, by omega, rfl, by simpa using ht,
        fun j hj => absurd hj (Nat.not_lt_zero j)⟩

/-- When `findFree` exhausts its fuel, every candidate in the scanned
window was taken. -/
theorem findFree_none_spec (taken : String → Bool) (stem sfx : String) :
    ∀ fuel n, findFree taken stem sfx n fuel = none →
      ∀ j, j < fuel → taken (candName stem sfx (n + j)) = true := by
  intro fuel
  induction fuel with
  | zero => intro n _ j hj; exact absurd hj (Nat.not_lt_zero j)
  | succ fuel ih =>
    intro n h j hj
    simp only [findFree] at h
    split at h
    case isTrue ht =>
      match j with
      | 0 => simpa using ht
      | j + 1 =>
        have := ih (n + 1) h j (by omega)
        rw [show n + (j + 1) = n + 1 + j by omega]
        exact this
    case isFalse ht => simp at h

/-- When every candidate in the window is taken, `findFree` fails. -/
theorem findFree_all_taken (taken : String → Bool) (stem sfx : String) :
    ∀ fuel n, (∀ j, j < fuel → taken (candName stem sfx (n + j)) = true) →
      findFree taken stem sfx n fuel = none := by
  intro fuel
  induction fuel with
  | zero => intro n _; rfl
  | succ fuel ih =>
    intro n h
    have h0 : taken (candName stem sfx n) = true := by simpa using h 0 (Nat.succ_pos _)
    simp only [findFree, h0, if_true]
    exact ih (n + 1) fun j hj => by
      have := h (j + 1) (by omega)
      rw [show n + 1 + j = n + (j + 1) by omega]
      exact this

/-- The contained archiver branch always mutates the filesystem (at least
the archive-directory creation). -/
theorem archiveContained_acts_ne_nil (fs : FS) (vscode_root task_abs : PyPath) :
    (archiveContained fs vscode_root task_abs).acts ≠ [] := by
  simp only [archiveContained]
  split <;> simp

/-! ## Claims -/

/-- C3: the destination name equals the source base name when unused;
otherwise it is the base name with `" (n)"` inserted before the extension
for the smallest `n ≥ 1` whose candidate is unused; if no free name exists
within the 999 bounded attempts the search fails (`RuntimeError`, the
spec's `ArchiveNameExhausted`); a returned name is always unused, so a
second archive of the same base name never overwrites the first. -/
theorem unique_dest_spec (taken : String → Bool) (name : String) :
    (taken name = false → unique_dest taken name = some name)
    ∧ (∀ c, unique_dest taken name = some c → taken c = false)
    ∧ (taken name = true → ∀ c, unique_dest taken name = some c →
        ∃ n, 1 ≤ n ∧ n ≤ 999 ∧
          c = candName (pyStemSuffix name).1 (pyStemSuffix name).2 n ∧
          ∀ m, 1 ≤ m → m < n →
            taken (candName (pyStemSuffix name).1 (pyStemSuffix name).2 m) = true)
    ∧ (taken name = true →
        (∀ n, 1 ≤ n → n ≤ 999 →
          taken (candName (pyStemSuffix name).1 (pyStemSuffix name).2 n) = true) →
        unique_dest taken name = none) := by
  refine ⟨?_, ?_, ?_, ?_⟩
  · intro h; simp [unique_dest, h]
  · intro c hc
    unfold unique_dest at hc
    split at hc
    case isTrue h => injection hc with hc; subst hc; assumption
    case isFalse h =>
      obtain ⟨k, _, _, hf, _⟩ := findFree_some_spec taken _ _ 999 1 c hc
      exact hf
  · intro ht c hc
    unfold unique_dest at hc
    rw [if_neg (by simp [ht])] at hc
    obtain ⟨k, hk, hc', _, hall⟩ := findFree_some_spec taken _ _ 999 1 c hc
    refine ⟨1 + k, by omega, by omega, hc', ?_⟩
    intro m h1 hm
    have := hall (m - 1) (by omega)
    rw [show 1 + (m - 1) = m by omega] at this
    exact this
  · intro ht hall
    unfold unique_dest
    rw [if_neg (by simp [ht])]
    exact findFree_all_taken taken _ _ 999 1 fun j hj => hall (1 + j) (by omega) (by omega)

/-- Existence predicate for C3's witness: only `plan.md` is present in
the archive directory. -/
def takenPlan : String → Bool := fun s => s == "plan.md"

/-- Witness for C3: with only `plan.md` taken, the chosen name is the
`" (1)"` variant `plan (1).md`, which is unused. -/
theorem unique_dest_spec_witness :
    takenPlan "plan.md" = true ∧
    unique_dest takenPlan "plan.md" = some "plan (1).md" ∧
    (∃ n, 1 ≤ n ∧ n ≤ 999 ∧
      "plan (1).md" = candName (pyStemSuffix "plan.md").1 (pyStemSuffix "plan.md").2 n ∧
      ∀ m, 1 ≤ m → m < n →
        takenPlan (candName (pyStemSuffix "plan.md").1 (pyStemSuffix "plan.md").2 m) = true) :=
  ⟨by decide, by decide,
   (unique_dest_spec takenPlan "plan.md").2.2.1 (by decide) "plan (1).md" (by decide)⟩

/-- C4: an existing task path that is not a strict descendant of the
workspace's `.vscode` directory is skipped: exit 0, an explanatory
message, and no filesystem mutation. -/
theorem archive_skip_outside (fs : FS) (taskArg : PyPath) (wsArg : Option PyPath)
    (hex : fs.pathExists (resolvedTask fs taskArg wsArg) = true)
    (hsub : is_subpath fs (resolvedTask fs taskArg wsArg)
      (pathChild (wsRoot fs wsArg) ".vscode") = false) :
    archiveMain fs taskArg wsArg =
      { outcome := .exit 0, acts := [],
        msgs := ["Skip: task is not under .vscode/: " ++
          pathStr (resolvedTask fs taskArg wsArg)] } := by
  simp [archiveMain, hex, hsub]

/-- Filesystem oracle for the archiver witnesses: everything resolves to
itself and exactly `/home/notes.md` exists. -/
def fsA : FS :=
  { cwd := ⟨true, ["home"]⟩, expanduser := id, resolve := id,
    pathExists := fun p => p == ⟨true, ["home", "notes.md"]⟩ }

/-- Witness for C4: archiving the existing `/home/notes.md` (outside
`/home/.vscode`) is a pure skip with exit 0. -/
theorem archive_skip_outside_witness :
    fsA.pathExists (resolvedTask fsA ⟨false, ["notes.md"]⟩ none) = true ∧
    is_subpath fsA (resolvedTask fsA ⟨false, ["notes.md"]⟩ none)
      (pathChild (wsRoot fsA none) ".vscode") = false ∧
    archiveMain fsA ⟨false, ["notes.md"]⟩ none =
      { outcome := .exit 0, acts := [],
        msgs := ["Skip: task is not under .vscode/: " ++
          pathStr (resolvedTask fsA ⟨false, ["notes.md"]⟩ none)] } :=
  ⟨by decide, by decide,
   archive_skip_outside fsA ⟨false, ["notes.md"]⟩ none (by decide) (by decide)⟩

/-- C7: a task path whose resolved form does not exist is reported,
exits 2, and performs no filesystem mutation. -/
theorem archive_missing_task (fs : FS) (taskArg : PyPath) (wsArg : Option PyPath)
    (hex : fs.pathExists (resolvedTask fs taskArg wsArg) = false) :
    archiveMain fs taskArg wsArg =
      { outcome := .exit 2, acts := [],
        msgs := ["Task file not found: " ++ pathStr (resolvedTask fs taskArg wsArg)] } := by
  simp [archiveMain, hex]

/-- Filesystem oracle for C7's witness: nothing exists. -/
def fsB : FS :=
  { cwd := ⟨true, ["home"]⟩, expanduser := id, resolve := id, pathExists := fun _ => false }

/-- Witness for C7: archiving the missing `x.md` exits 2 with no acts. -/
theorem archive_missing_task_witness :
    fsB.pathExists (resolvedTask fsB ⟨false, ["x.md"]⟩ none) = false ∧
    archiveMain fsB ⟨false, ["x.md"]⟩ none =
      { outcome := .exit 2, acts := [],
        msgs := ["Task file not found: " ++ pathStr (resolvedTask fsB ⟨false, ["x.md"]⟩ none)] } :=
  ⟨rfl, archive_missing_task fsB ⟨false, ["x.md"]⟩ none rfl⟩

/-- C8: the `--workspace` argument defaults to the current working
directory; a relative task path (after `expanduser`) is resolved under the
workspace root, an absolute one is resolved as-is; and the run's skip
decision is exactly the containment check on that resolved form against
the workspace's `.vscode` directory. -/
theorem archive_resolution_spec (fs : FS) (taskArg : PyPath) (wsArg : Option PyPath) :
    archiveMain fs taskArg none = archiveMain fs taskArg (some fs.cwd)
    ∧ ((fs.expanduser taskArg).isAbs = true →
        resolvedTask fs taskArg wsArg = fs.resolve (fs.expanduser taskArg))
    ∧ ((fs.expanduser taskArg).isAbs = false →
        resolvedTask fs taskArg wsArg =
          fs.resolve (pyJoin (wsRoot fs wsArg) (fs.expanduser taskArg)))
    ∧ (fs.pathExists (resolvedTask fs taskArg wsArg) = true →
        (((archiveMain fs taskArg wsArg).outcome = .exit 0 ∧
            (archiveMain fs taskArg wsArg).acts = []) ↔
          is_subpath fs (resolvedTask fs taskArg wsArg)
            (pathChild (wsRoot fs wsArg) ".vscode") = false)) := by
  refine ⟨rfl, ?_, ?_, ?_⟩
  · intro h; simp [resolvedTask, h]
  · intro h; simp [resolvedTask, h]
  · intro hex
    cases hs : is_subpath fs (resolvedTask fs taskArg wsArg)
        (pathChild (wsRoot fs wsArg) ".vscode") with
    | false => simp [archiveMain, hex, hs]
    | true =>
      simp only [archiveMain, hex, hs]
      simp only [Bool.true_eq_false, if_false, reduceIte]
      constructor
      · rintro ⟨-, hacts⟩
        exact absurd hacts (archiveContained_acts_ne_nil fs _ _)
      · intro h; cases h

/-- Witness for C8: for the relative task `t.md` under `fsA`, the default
workspace equals an explicit `--workspace $PWD`, and the resolved form is
the join under the workspace root. -/
theorem archive_resolution_witness :
    ((fsA.expanduser ⟨false, ["t.md"]⟩).isAbs = false ∧
      resolvedTask fsA ⟨false, ["t.md"]⟩ none =
        fsA.resolve (pyJoin (wsRoot fsA none) (fsA.expanduser ⟨false, ["t.md"]⟩))) ∧
    archiveMain fsA ⟨false, ["t.md"]⟩ none = archiveMain fsA ⟨false, ["t.md"]⟩ (some fsA.cwd) :=
  ⟨⟨rfl, (archive_resolution_spec fsA ⟨false, ["t.md"]⟩ none).2.2.1 rfl⟩,
   (archive_resolution_spec fsA ⟨false, ["t.md"]⟩ none).1⟩

/-- C9: a third positional argument that is not a decimal integer literal
makes `int(sys.argv[3])` raise an uncaught `ValueError`: the process dies
with a traceback before the input-existence check, with no filesystem
effect and none of the exit-1 error paths, whatever the environment. -/
theorem convert_badsize_traceback (env : ConvEnv) :
    convMain env ["scripts/convert_svg_to_png.py", "icon.svg", "icon.png", "large"] =
      { outcome := .exc "ValueError: invalid literal for int() with base 10: large",
        events := [], msgs := [] } := by
  rfl

/-- Environment with no backend available but an existing input. -/
def envN : ConvEnv :=
  { hasCairosvg := false, hasWand := false, rsvgFound := false, rsvgExitZero := false,
    magickFound := false, magickExitZero := false, inputExists := true,
    backendRaises := false, toolExitZero := false, errText := "",
    outputExistsAfter := false, outputFileSize := 0, manifest := none }

/-- Witness for C9: the traceback termination at a concrete environment. -/
theorem convert_badsize_traceback_witness :
    convMain envN ["scripts/convert_svg_to_png.py", "icon.svg", "icon.png", "large"] =
      { outcome := .exc "ValueError: invalid literal for int() with base 10: large",
        events := [], msgs := [] } :=
  convert_badsize_traceback envN

/-- C10: whenever the input file exists, the very first filesystem effect
of the run is the creation of the output path's parent directory — before
backend probing, hence also on runs that then fail with no backend or a
conversion failure. -/
theorem output_dir_created_first (env : ConvEnv) (argv0 svg png : String) (size : Int)
    (h : env.inputExists = true) :
    (convRun env argv0 svg png size).events.head? =
      some (ConvEvent.mkdirParent (parentDir png)) := by
  simp only [convRun, h]
  rw [if_neg (by simp : ¬(true = false))]
  cases hc : check_dependencies env with
  | none => simp
  | some b => split <;> (try split) <;> (try split) <;> (try split) <;> simp

/-- Witness for C10: in the no-backend environment `envN` (a failing run)
the parent directory of the output is still created first. -/
theorem output_dir_created_first_witness :
    envN.inputExists = true ∧
    (convRun envN "p" "a.svg" "icons/b.png" 128).events.head? =
      some (ConvEvent.mkdirParent (parentDir "icons/b.png")) :=
  ⟨rfl, output_dir_created_first envN "p" "a.svg" "icons/b.png" 128 rfl⟩

/-- C6: when the input exists but no backend probe succeeds, the run
prints installation guidance for all four known backends, exits 1, and its
only filesystem effect is the output-directory creation — in particular no
backend is invoked and no output file is produced. -/
theorem no_backend_spec (env : ConvEnv) (argv0 svg png : String) (size : Int)
    (h1 : env.inputExists = true) (h2 : check_dependencies env = none) :
    (convRun env argv0 svg png size).outcome = .exit 1
    ∧ install_suggestion "cairosvg" ∈ (convRun env argv0 svg png size).msgs
    ∧ install_suggestion "wand" ∈ (convRun env argv0 svg png size).msgs
    ∧ install_suggestion "rsvg-convert" ∈ (convRun env argv0 svg png size).msgs
    ∧ install_suggestion "imagemagick" ∈ (convRun env argv0 svg png size).msgs
    ∧ (convRun env argv0 svg png size).events = [ConvEvent.mkdirParent (parentDir png)] := by
  simp [convRun, h1, h2]

/-- Witness for C6: the concrete no-backend environment exits 1 with the
lone directory-creation effect. -/
theorem no_backend_spec_witness :
    envN.inputExists = true ∧ check_dependencies envN = none ∧
    (convRun envN "p" "a.svg" "b.png" 128).outcome = .exit 1 ∧
    (convRun envN "p" "a.svg" "b.png" 128).events = [ConvEvent.mkdirParent (parentDir "b.png")] :=
  ⟨rfl, rfl, (no_backend_spec envN "p" "a.svg" "b.png" 128 rfl rfl).1,
   (no_backend_spec envN "p" "a.svg" "b.png" 128 rfl rfl).2.2.2.2.2⟩

/-- C2: backends are probed in the fixed priority order cairosvg, wand,
rsvg-convert, imagemagick; a failed probe is non-fatal (the selected
backend is always available and is minimal in the priority order among
available ones, and discovery only fails when every probe fails); and the
selected backend is the only one invoked, regardless of whether its
invocation then succeeds. -/
theorem backend_selection_spec (env : ConvEnv) (argv0 svg png : String) (size : Int) :
    (∀ b, check_dependencies env = some b → available env b = true)
    ∧ (∀ b b', check_dependencies env = some b → available env b' = true →
        priority b ≤ priority b')
    ∧ (check_dependencies env = none ↔ ∀ b, available env b = false)
    ∧ (∀ b, env.inputExists = true → check_dependencies env = some b →
        (convRun env argv0 svg png size).events.filter isInvoke = [ConvEvent.invoke b]) := by
  refine ⟨?_, ?_, ?_, ?_⟩
  · intro b hb
    unfold check_dependencies at hb
    split_ifs at hb with h1 h2 h3 h4 <;>
      first
        | (injection hb with hb; subst hb; simp only [available]; assumption)
        | simp at hb
  · intro b b' hb hb'
    unfold check_dependencies at hb
    split_ifs at hb with h1 h2 h3 h4 <;>
      first
        | (injection hb with hb; subst hb;
           cases b' <;> simp_all [available, priority] <;> omega)
        | simp at hb
  · constructor
    · intro h b
      unfold check_dependencies at h
      split_ifs at h with h1 h2 h3 h4 <;> try simp at h
      simp only [Bool.not_eq_true] at h1 h2 h3 h4
      cases b <;> simp only [available] <;> assumption
    · intro h
      have h1 := h .cairosvg
      have h2 := h .wand
      have h3 := h .rsvg
      have h4 := h .magick
      simp only [available] at h1 h2 h3 h4
      simp [check_dependencies, h1, h2, h3, h4]
  · intro b hin hb
    simp only [convRun, hin, hb]
    rw [if_neg (by simp : ¬(true = false))]
    split <;> (try split) <;> (try split) <;> (try split) <;> simp [isInvoke]

/-- Environment for the C2 witness: only the wand backend is available. -/
def envW : ConvEnv :=
  { envN with hasWand := true, outputExistsAfter := true }

/-- Witness for C2: with only wand available, discovery selects wand and
the run invokes exactly wand. -/
theorem backend_selection_witness :
    check_dependencies envW = some Backend.wand ∧
    available envW Backend.wand = true ∧
    (convRun envW "p" "a.svg" "b.png" 128).events.filter isInvoke =
      [ConvEvent.invoke Backend.wand] :=
  ⟨rfl, (backend_selection_spec envW "p" "a.svg" "b.png" 128).1 Backend.wand rfl,
   (backend_selection_spec envW "p" "a.svg" "b.png" 128).2.2.2 Backend.wand rfl rfl⟩

/-- C5: the run exits 0 and prints the confirmation summary (output file
size in bytes and pixel dimensions) exactly when the input existed, a
backend was selected and reported success, and the output file exists
afterwards; in every other case the exit status is 1. -/
theorem convert_exit_spec (env : ConvEnv) (argv0 svg png : String) (size : Int) :
    (((convRun env argv0 svg png size).outcome = .exit 0 ∧
        ∀ m ∈ summaryMsgs png env.outputFileSize size,
          m ∈ (convRun env argv0 svg png size).msgs) ↔
      (env.inputExists = true ∧
        (∃ b, check_dependencies env = some b ∧ backendSuccess env b = true) ∧
        env.outputExistsAfter = true))
    ∧ ((convRun env argv0 svg png size).outcome = .exit 0 ∨
        (convRun env argv0 svg png size).outcome = .exit 1)
    ∧ (¬(env.inputExists = true ∧
          (∃ b, check_dependencies env = some b ∧ backendSuccess env b = true) ∧
          env.outputExistsAfter = true) →
        (convRun env argv0 svg png size).outcome = .exit 1) := by
  cases hin : env.inputExists with
  | false => simp [convRun, hin]
  | true =>
    cases hc : check_dependencies env with
    | none => simp [convRun, hin, hc]
    | some b =>
      simp only [convRun, hin, hc]
      rw [if_neg (by simp : ¬(true = false))]
      cases hbs : backendSuccess env b with
      | false => simp [hbs]
      | true =>
        cases hoe : env.outputExistsAfter with
        | false => simp [hbs, hoe]
        | true =>
          simp only [hbs, hoe, Bool.and_self]
          rw [if_pos trivial]
          split <;> (try split) <;>
            exact ⟨iff_of_true ⟨rfl, fun m hm' => by simp [hm']⟩ ⟨trivial, ⟨b, rfl, hbs⟩, trivial⟩,
              Or.inl rfl,
              fun hns => absurd ⟨trivial, ⟨b, rfl, hbs⟩, trivial⟩ hns⟩

/-- Environment for the success-path witnesses: cairosvg available, the
backend succeeds, and the output file exists afterwards. -/
def envS : ConvEnv :=
  { envN with hasCairosvg := true, outputExistsAfter := true, outputFileSize := 4096 }

/-- Witness for C5: a concrete verified-success run exits 0 and a concrete
non-success run (no backend found, no output) exits 1. -/
theorem convert_exit_spec_witness :
    (convRun envS "p" "icon.svg" "icon.png" 64).outcome = .exit 0 ∧
    (convRun envN "p" "icon.svg" "icon.png" 64).outcome = .exit 1 :=
  ⟨((convert_exit_spec envS "p" "icon.svg" "icon.png" 64).1.mpr
      ⟨rfl, ⟨Backend.cairosvg, rfl, rfl⟩, rfl⟩).1,
   (convert_exit_spec envN "p" "icon.svg" "icon.png" 64).2.2
     (fun h => absurd h.2.2 (by decide))⟩

/-- Environment refuting C1: a verified-success run whose input is
`custom.svg` and whose manifest holds a literal icon reference to that
very input path. -/
def envFix : ConvEnv :=
  { envS with manifest := some "\"icon\": \"custom.svg\"" }

/-- Counterexample to C1 as stated: the run reaches verified success
(exit 0), the manifest exists and contains the literal icon reference
`"icon": "custom.svg"` to the run's input path `custom.svg`, yet the
manifest is not rewritten at all — the code only matches the fixed
default-path literal, not the input path actually used. -/
theorem manifest_rewrite_cex :
    (convRun envFix "p" "custom.svg" "out.png" 128).outcome = .exit 0
    ∧ envFix.manifest = some "\"icon\": \"custom.svg\""
    ∧ strIn "\"icon\": \"custom.svg\"" "\"icon\": \"custom.svg\"" = true
    ∧ (convRun envFix "p" "custom.svg" "out.png" 128).events.filter isRewrite = [] := by
  refine ⟨rfl, rfl, by decide, by decide⟩

/-- C1 (amended): on every verified-success run, the rewrite targets only
the fixed literal `"icon": "resources/icons/shortcuts.svg"` — independent
of the run's actual input and output paths — replacing every occurrence
with the fixed literal `"icon": "resources/icons/shortcuts.png"`; when the
manifest is absent or lacks that literal nothing is written, and the run
exits 0 in every case (no error). -/
theorem manifest_rewrite_amended (env : ConvEnv) (argv0 svg png : String) (size : Int)
    (b : Backend) (h1 : env.inputExists = true) (h2 : check_dependencies env = some b)
    (h3 : backendSuccess env b = true) (h4 : env.outputExistsAfter = true) :
    (convRun env argv0 svg png size).outcome = .exit 0
    ∧ (∀ content, env.manifest = some content → strIn iconOld content = true →
        (convRun env argv0 svg png size).events.filter isRewrite =
          [ConvEvent.rewriteManifest (pyReplace content iconOld iconNew)])
    ∧ (∀ content, env.manifest = some content → strIn iconOld content = false →
        (convRun env argv0 svg png size).events.filter isRewrite = [])
    ∧ (env.manifest = none →
        (convRun env argv0 svg png size).events.filter isRewrite = []) := by
  simp only [convRun, h1, h2]
  rw [if_neg (by simp : ¬(true = false))]
  simp only [h3, h4, Bool.and_self]
  rw [if_pos trivial]
  cases hm : env.manifest with
  | none => simp [isRewrite]
  | some c =>
    by_cases hstr : strIn iconOld c = true
    · simp [hstr, isRewrite]
    · simp only [Bool.not_eq_true] at hstr
      simp [hstr, isRewrite]

/-- Environment for the amended-claim witness: like `envS` but the
manifest holds exactly the fixed default-path literal. -/
def envUp : ConvEnv :=
  { envS with manifest := some iconOld }

/-- Witness for the amended C1: with the fixed literal present, the run
writes back the manifest with the fixed replacement applied. -/
theorem manifest_rewrite_amended_witness :
    strIn iconOld iconOld = true ∧
    (convRun envUp "p" "in.svg" "out.png" 128).events.filter isRewrite =
      [ConvEvent.rewriteManifest (pyReplace iconOld iconOld iconNew)] :=
  ⟨by decide,
   (manifest_rewrite_amended envUp "p" "in.svg" "out.png" 128 Backend.cairosvg
      rfl rfl rfl rfl).2.1 iconOld rfl (by decide)⟩
